import Mathlib

/-!
Verification development for the arc_tracker puzzle game.

The definitions below are a shallow embedding of the game's core engine:

* the geometry helpers (function distance in sprites_and_functions.py and
  main.py, the circle-vs-rectangle test collide_with_rect in main.py),
* the player-controlled ArcTracker state machine
  (class ArcTracker in sprites_and_functions.py, lines 26-243) and the
  Ready-state branch of its clone (class ArcTrackerClone, lines 246-484),
* the per-frame level protocol (class Level in levels.py, lines 11-154).

Modelling conventions:

* Python floats are idealised as real numbers; pixel quantities that the
  source keeps as Python ints (cursor position, rect centers, obstacle data,
  the configured minimum orbit radius) are integers here.
* pygame rect centers are integer pairs; the source's
  rect.centerx = round(x_pos) is modelled with Mathlib's round
  (Python rounds half-to-even; no statement below depends on a tie).
* The global init.DELTA_TIME is passed explicitly as a dt argument.
* Sprite "kill" of the preview objects (path, borderline, axis marker) is
  modelled by setting the corresponding Option field to none.
* Purely visual state (surfaces, images, masks, animation frame counters) is
  not part of the model.  Obstacles inside a level are modelled by the one
  shape whose collision predicate the source defines analytically,
  StaticCircularObstacle (sprites_and_functions.py lines 790-829); the other
  obstacle classes test pixel-mask overlap, which has no analytic
  description.
-/

noncomputable section
open Classical

/-- Euclidean distance of two positions, translating function distance
(sprites_and_functions.py lines 14-23 and main.py lines 70-78). -/
def distance (pos1 pos2 : ℝ × ℝ) : ℝ :=
  Real.sqrt ((pos1.1 - pos2.1) ^ 2 + (pos1.2 - pos2.2) ^ 2)

/-- Cast an integer pixel position to a real position. -/
def castPos (p : ℤ × ℤ) : ℝ × ℝ := ((p.1 : ℝ), (p.2 : ℝ))

/-- Two-argument arctangent, modelling Python math.atan2: the argument of
the complex number x + y*i. -/
def atan2 (y x : ℝ) : ℝ := Complex.arg ⟨x, y⟩

/-- Screen width in pixels (init.py line 57). -/
def screen_width : ℤ := 1920

/-- Screen height in pixels (init.py line 57). -/
def screen_height : ℤ := 1080

/-- Side length of the square ArcTracker sprite (its rect width and height,
sprites_and_functions.py line 63). -/
def trackerSize : ℤ := 30

/-- Snapshot of the mouse input dictionary consumed by the update methods
(keys LCLICK, RCLICK, CURPOS; the unused middle/scroll entries are not
modelled). -/
structure MouseState where
  lclick : Bool
  rclick : Bool
  curpos : ℤ × ℤ

/-- Snapshot of the keyboard input consumed by the update methods
(only the keys K_ESCAPE and K_c are read). -/
structure KeyState where
  escape : Bool
  c : Bool

/-- Preview orbit circle, class ArcTrackerPath
(sprites_and_functions.py lines 487-536). -/
structure ArcTrackerPath where
  arc_tracker_pos : ℤ × ℤ
  x_pos : ℤ
  y_pos : ℤ
  radius : ℝ

/-- Constructor of ArcTrackerPath (lines 496-517). -/
def mkArcTrackerPath (cursor_pos arc_tracker_pos : ℤ × ℤ) : ArcTrackerPath :=
  { arc_tracker_pos := arc_tracker_pos
    x_pos := cursor_pos.1
    y_pos := cursor_pos.2
    radius := distance (castPos cursor_pos) (castPos arc_tracker_pos) }

/-- ArcTrackerPath.update (lines 519-536): recenter on the cursor and
recompute the radius. -/
def pathUpdate (m : MouseState) (p : ArcTrackerPath) : ArcTrackerPath :=
  { p with
    x_pos := m.curpos.1
    y_pos := m.curpos.2
    radius := distance (castPos m.curpos) (castPos p.arc_tracker_pos) }

/-- Minimum-radius guide circle, class MinimumRadiusBorderLine
(sprites_and_functions.py lines 539-576); its update method is a no-op. -/
structure MinimumRadiusBorderLine where
  center : ℤ × ℤ
  radius : ℤ

/-- Axis marker, class RotationAxisMarker (sprites_and_functions.py
lines 579-627); only its position is modelled (which of the two images is
shown is purely visual). -/
structure RotationAxisMarker where
  pos : ℤ × ℤ

/-- RotationAxisMarker.update (lines 611-627): follow the cursor. -/
def markerUpdate (m : MouseState) (a : RotationAxisMarker) : RotationAxisMarker :=
  { a with pos := m.curpos }

/-- The three states of an ArcTracker.  The source stores the strings
"idle", "ready" and "Moving" and dispatches on equality with "idle" and
"ready", treating everything else as the moving state. -/
inductive ATState where
  | idle
  | ready
  | moving
deriving DecidableEq

/-- State of one player-controlled tracker, class ArcTracker
(sprites_and_functions.py lines 26-243). -/
structure ArcTracker where
  state : ATState
  initial_pos : ℤ × ℤ
  x_pos : ℝ
  y_pos : ℝ
  id_num : ℤ
  rect_center : ℤ × ℤ
  rotation_axis : ℤ × ℤ
  rotation_radius : ℝ
  rotation_speed : ℤ
  rotation_angular_speed : ℝ
  relative_angle : ℝ
  direction_factor : ℤ
  angular_speed_per_frame : ℝ
  path : Option ArcTrackerPath
  min_path_radius : ℤ
  borderline : Option MinimumRadiusBorderLine
  axis_marker : Option RotationAxisMarker
  mouse_pressed : Bool
  raise_popup : Bool
  level_complete : Bool

/-- Constructor of ArcTracker (lines 47-97): rotation_speed is the constant
linear speed 360 px/sec. -/
def ArcTracker.mk0 (pos : ℤ × ℤ) (id_num : ℤ) (min_orbit_radius : ℤ) : ArcTracker :=
  { state := ATState.idle
    initial_pos := pos
    x_pos := (pos.1 : ℝ)
    y_pos := (pos.2 : ℝ)
    id_num := id_num
    rect_center := pos
    rotation_axis := (0, 0)
    rotation_radius := 0
    rotation_speed := 360
    rotation_angular_speed := 0
    relative_angle := 0
    direction_factor := 1
    angular_speed_per_frame := 0
    path := none
    min_path_radius := min_orbit_radius
    borderline := none
    axis_marker := none
    mouse_pressed := false
    raise_popup := false
    level_complete := false }

/-- ArcTracker.init models the in-game reset method
ArcTracker.initialize (lines 99-122): kill the preview objects, return to
the idle state at the starting position, clear all boolean flags. -/
def ArcTracker.init (t : ArcTracker) : ArcTracker :=
  { t with
    path := none
    borderline := none
    axis_marker := none
    state := ATState.idle
    x_pos := (t.initial_pos.1 : ℝ)
    y_pos := (t.initial_pos.2 : ℝ)
    rect_center := t.initial_pos
    mouse_pressed := false
    raise_popup := false
    level_complete := false }

/-- ArcTracker.reject_path (lines 233-243): kill the preview path and stay
in the idle state. -/
def rejectPath (t : ArcTracker) : ArcTracker :=
  { t with path := none, state := ATState.idle }

/-- Final lines of ArcTracker.update (lines 227-228): copy the continuous
position into the integer rect center. -/
def posToRect (t : ArcTracker) : ArcTracker :=
  { t with rect_center := (round t.x_pos, round t.y_pos) }

/-- Idle state, first block (lines 147-151): on a fresh left press, latch
the button and create the preview path, the borderline and the axis
marker.  The source builds the axis marker from the global cursor
position, which equals the cursor position of the frame's input snapshot. -/
def idlePress (m : MouseState) (t : ArcTracker) : ArcTracker :=
  if !t.mouse_pressed && m.lclick then
    { t with
      mouse_pressed := true
      path := some (mkArcTrackerPath m.curpos t.rect_center)
      borderline := some { center := t.rect_center, radius := t.min_path_radius }
      axis_marker := some { pos := m.curpos } }
  else t

/-- Idle state, second block (lines 153-175): while the button is held the
rotation axis tracks the cursor; on release the orbit radius is computed
and the tracker either enters the ready state (radius at least the
minimum) or rejects the draft orbit and raises the popup flag. -/
def idleRelease (m : MouseState) (t : ArcTracker) : ArcTracker :=
  if t.mouse_pressed then
    let t1 := { t with rotation_axis := m.curpos }
    if !m.lclick then
      let r := distance (t1.x_pos, t1.y_pos) (castPos t1.rotation_axis)
      let t2 := { t1 with
        borderline := none
        axis_marker := none
        mouse_pressed := false
        rotation_radius := r }
      if (t2.min_path_radius : ℝ) ≤ r then { t2 with state := ATState.ready }
      else rejectPath { t2 with raise_popup := true }
    else t1
  else t

/-- Idle state, last block (lines 177-182): update the preview path and the
axis marker when they exist. -/
def idlePost (m : MouseState) (t : ArcTracker) : ArcTracker :=
  { t with
    path := t.path.map (pathUpdate m)
    axis_marker := t.axis_marker.map (markerUpdate m) }

/-- Ready state, commit block (lines 186-194): on an exclusive left/right
press, compute radius, angular speed, initial phase and the direction
factor (-1 for a left click, 1 for a right click). -/
def readyCommit (m : MouseState) (t : ArcTracker) : ArcTracker :=
  if !t.mouse_pressed && (m.lclick ^^ m.rclick) then
    let r := distance (t.x_pos, t.y_pos) (castPos t.rotation_axis)
    { t with
      mouse_pressed := true
      rotation_radius := r
      rotation_angular_speed := (t.rotation_speed : ℝ) / r
      relative_angle :=
        atan2 (t.y_pos - (t.rotation_axis.2 : ℝ)) (t.x_pos - (t.rotation_axis.1 : ℝ))
      direction_factor := if m.lclick then -1 else 1 }
  else t

/-- Ready state, transition block (lines 196-199): when both buttons are
released after a commit, enter the moving state. -/
def readyGo (m : MouseState) (t : ArcTracker) : ArcTracker :=
  if t.mouse_pressed && !(m.lclick || m.rclick) then
    { t with mouse_pressed := false, state := ATState.moving }
  else t

/-- Ready state, cancel block (lines 201-204): escape or the c key kills
the preview path and returns to the idle state. -/
def readyCancel (m : MouseState) (k : KeyState) (t : ArcTracker) : ArcTracker :=
  if (k.escape || k.c) && !(m.lclick || m.rclick) then
    { t with path := none, state := ATState.idle }
  else t

/-- Moving state, integration block (lines 208-212): advance the phase by
direction_factor * rotation_angular_speed * dt and recompute the position
on the circle around the rotation axis. -/
def movingIntegrate (dt : ℝ) (t : ArcTracker) : ArcTracker :=
  let step := (t.direction_factor : ℝ) * t.rotation_angular_speed * dt
  { t with
    angular_speed_per_frame := step
    relative_angle := t.relative_angle + step
    x_pos := ((t.rotation_axis.1 : ℝ)) + t.rotation_radius * Real.cos (t.relative_angle + step)
    y_pos := ((t.rotation_axis.2 : ℝ)) + t.rotation_radius * Real.sin (t.relative_angle + step) }

/-- Moving state, stop block (lines 214-219): a fresh left press freezes
the angular speed and kills the preview path. -/
def movingStop (m : MouseState) (t : ArcTracker) : ArcTracker :=
  if !t.mouse_pressed && m.lclick then
    { t with rotation_angular_speed := 0, mouse_pressed := true, path := none }
  else t

/-- Moving state, release block (lines 221-224): releasing the left button
returns to the idle state. -/
def movingRelease (m : MouseState) (t : ArcTracker) : ArcTracker :=
  if t.mouse_pressed && !m.lclick then
    { t with mouse_pressed := false, state := ATState.idle }
  else t

/-- ArcTracker.update (sprites_and_functions.py lines 124-231): when the
tracker has completed the level the whole machine is inert and only the
per-frame angular speed is zeroed; otherwise the per-frame angular speed is
zeroed and the current state's blocks run in source order, finishing with
the rect update. -/
def atUpdate (t : ArcTracker) (m : MouseState) (k : KeyState) (dt : ℝ) : ArcTracker :=
  if t.level_complete then { t with angular_speed_per_frame := 0 }
  else
    posToRect
      (match ({ t with angular_speed_per_frame := 0 } : ArcTracker).state with
       | ATState.idle =>
           idlePost m (idleRelease m (idlePress m { t with angular_speed_per_frame := 0 }))
       | ATState.ready =>
           readyCancel m k (readyGo m (readyCommit m { t with angular_speed_per_frame := 0 }))
       | ATState.moving =>
           movingRelease m (movingStop m (movingIntegrate dt { t with angular_speed_per_frame := 0 })))

/-- State of a clone tracker, class ArcTrackerClone
(sprites_and_functions.py lines 246-484).  Only the fields read or written
by the Ready-state branch of its update method (lines 420-445) are
modelled, together with move_opposite_direction; the idle branch derives
the axis from the host's pointer offset and is not needed by the claims. -/
structure ArcTrackerClone where
  state : ATState
  x_pos : ℝ
  y_pos : ℝ
  rect_center : ℤ × ℤ
  rotation_axis : ℤ × ℤ
  rotation_radius : ℝ
  rotation_speed : ℤ
  rotation_angular_speed : ℝ
  relative_angle : ℝ
  direction_factor : ℤ
  move_opposite_direction : Bool
  path : Option ArcTrackerPath
  mouse_pressed : Bool
  level_complete : Bool

/-- ArcTrackerClone Ready-state commit block (lines 422-435): same as the
host's, except that a clone with move_opposite_direction uses the inverted
direction mapping (1 for a left click, -1 for a right click). -/
def cloneReadyCommit (m : MouseState) (t : ArcTrackerClone) : ArcTrackerClone :=
  if !t.mouse_pressed && (m.lclick ^^ m.rclick) then
    let r := distance (t.x_pos, t.y_pos) (castPos t.rotation_axis)
    { t with
      mouse_pressed := true
      rotation_radius := r
      rotation_angular_speed := (t.rotation_speed : ℝ) / r
      relative_angle :=
        atan2 (t.y_pos - (t.rotation_axis.2 : ℝ)) (t.x_pos - (t.rotation_axis.1 : ℝ))
      direction_factor :=
        if !t.move_opposite_direction then (if m.lclick then -1 else 1)
        else (if m.lclick then 1 else -1) }
  else t

/-- ArcTrackerClone Ready-state transition block (lines 437-440). -/
def cloneReadyGo (m : MouseState) (t : ArcTrackerClone) : ArcTrackerClone :=
  if t.mouse_pressed && !(m.lclick || m.rclick) then
    { t with mouse_pressed := false, state := ATState.moving }
  else t

/-- ArcTrackerClone Ready-state cancel block (lines 442-445). -/
def cloneReadyCancel (m : MouseState) (k : KeyState) (t : ArcTrackerClone) : ArcTrackerClone :=
  if (k.escape || k.c) && !(m.lclick || m.rclick) then
    { t with path := none, state := ATState.idle }
  else t

/-- The whole Ready-state branch of ArcTrackerClone.update
(lines 420-445) followed by the rect update (lines 467-469). -/
def cloneReadyStep (m : MouseState) (k : KeyState) (t : ArcTrackerClone) : ArcTrackerClone :=
  let t3 := cloneReadyCancel m k (cloneReadyGo m (cloneReadyCommit m t))
  { t3 with rect_center := (round t3.x_pos, round t3.y_pos) }

/-- Rectangular sprite used by collide_with_rect in main.py, described by
the pygame rect fields x, y, w, h; centerx and centery are derived the way
pygame derives them. -/
structure RectObs where
  x : ℤ
  y : ℤ
  w : ℤ
  h : ℤ

/-- Horizontal center of a pygame rect. -/
def RectObs.centerx (r : RectObs) : ℤ := r.x + r.w / 2

/-- Vertical center of a pygame rect. -/
def RectObs.centery (r : RectObs) : ℤ := r.y + r.h / 2

/-- Circular sprite (a tracker) as read by collide_with_rect: its rect
center and its rect width. -/
structure CircSprite where
  center : ℤ × ℤ
  w : ℤ

/-- Per-rectangle test, the inner closure collided of collide_with_rect
(main.py lines 100-114): fast-reject outside the inflated box; in the
corner band on both axes, compare the distance between the sprite center
and the rectangle CENTER with the sprite radius; otherwise collide. -/
def rectCollided (s : CircSprite) (r : RectObs) : Prop :=
  let sprite_radius := s.w / 2
  if |s.center.1 - r.centerx| > r.w / 2 + sprite_radius ∨
     |s.center.2 - r.centery| > r.h / 2 + sprite_radius then False
  else if r.w / 2 < |s.center.1 - r.centerx| ∧
          |s.center.1 - r.centerx| ≤ r.w / 2 + sprite_radius then
    if r.h / 2 < |s.center.2 - r.centery| ∧
       |s.center.2 - r.centery| ≤ r.h / 2 + sprite_radius then
      distance (castPos s.center) (castPos (r.centerx, r.centery)) ≤ (sprite_radius : ℝ)
    else True
  else True

/-- collide_with_rect (main.py lines 81-117): does the circular sprite
collide with any rectangle of the group (False for an empty group)? -/
def collide_with_rect (s : CircSprite) (rectgroup : List RectObs) : Prop :=
  ∃ r ∈ rectgroup, rectCollided s r

/-- Pickup, class Coin (sprites_and_functions.py lines 630-669): a point
with no further state. -/
structure Coin where
  pos : ℤ × ℤ

/-- Goal, class GoalPoint (sprites_and_functions.py lines 672-720): a
fixed position and the one-shot matched flag.  Its update method only
animates the image. -/
structure GoalPoint where
  pos : ℤ × ℤ
  arctracker_matched : Bool

/-- Static circular obstacle, class StaticCircularObstacle
(sprites_and_functions.py lines 790-829); initialize and update are
no-ops. -/
structure StaticCircularObstacle where
  center : ℤ × ℤ
  radius : ℤ

/-- StaticCircularObstacle.collided (lines 818-829): strict comparison of
the center distance with the sum of the obstacle radius and half the
sprite rect width. -/
def StaticCircularObstacle.collided (o : StaticCircularObstacle) (a : ArcTracker) : Prop :=
  distance (castPos o.center) (castPos a.rect_center) <
    (o.radius : ℝ) + ((trackerSize / 2 : ℤ) : ℝ)

/-- State of one level, class Level (levels.py lines 11-105): the tracker
group, the obstacle group, the coin layout and live coin group, the goal
group and the cleared flag.  The bookkeeping fields (par, playtime) never
feed back into the update protocol and are not modelled. -/
structure LevelState where
  trackers : List ArcTracker
  obstacles : List StaticCircularObstacle
  coin_pos_list : List (ℤ × ℤ)
  coins : List Coin
  goals : List GoalPoint
  cleared : Bool

/-- LevelState.init models Level.initialize (levels.py lines 80-105):
reset every tracker, refill the coin group from the layout, unmatch every
goal, clear the cleared flag (obstacle initialize is a no-op for static
circular obstacles). -/
def LevelState.init (s : LevelState) : LevelState :=
  { s with
    trackers := s.trackers.map ArcTracker.init
    coins := s.coin_pos_list.map (fun p => { pos := p })
    goals := s.goals.map (fun g => { g with arctracker_matched := false })
    cleared := false }

/-- Phase 1 of Level.update (levels.py lines 117-120): run every sprite's
own update.  Static circular obstacles and coins have no-op updates and
the goal update only animates its image. -/
def spritePhase (s : LevelState) (m : MouseState) (k : KeyState) (dt : ℝ) : LevelState :=
  { s with trackers := s.trackers.map (fun a => atUpdate a m k dt) }

/-- Out-of-screen test of Level.update (lines 123-127). -/
def outOfBnds (a : ArcTracker) : Bool :=
  decide (a.rect_center.1 < (-trackerSize) / 2) ||
  decide (a.rect_center.1 > screen_width + trackerSize / 2) ||
  decide (a.rect_center.2 < (-trackerSize) / 2) ||
  decide (a.rect_center.2 > screen_height + trackerSize / 2)

/-- Phase 2 of Level.update (lines 122-127): if any tracker's rect center
left the inflated playfield, reinitialize the whole level (the source
breaks out of the scan after the first reset, so at most one reset runs). -/
def boundsPhase (s : LevelState) : LevelState :=
  if s.trackers.any outOfBnds then LevelState.init s else s

/-- Default tracker used only to totalise list indexing. -/
def trackerDefault : ArcTracker := ArcTracker.mk0 (0, 0) 1 150

instance : Inhabited ArcTracker := ⟨trackerDefault⟩

/-- Tracker number i of the current level state collides with some
obstacle (the condition of the inner collision loop, lines 130-134). -/
def hitsObstacle (s : LevelState) (i : ℕ) : Prop :=
  ∃ o ∈ s.obstacles, o.collided (s.trackers.getD i trackerDefault)

/-- One iteration of the outer collision loop of Level.update
(lines 129-134): the level is reinitialized when the tracker currently at
position i collides with an obstacle. -/
def collideStep (cur : LevelState) (i : ℕ) : LevelState :=
  if hitsObstacle cur i then LevelState.init cur else cur

/-- Phase 3 of Level.update (lines 129-134): scan the trackers in order;
whenever the tracker being examined (in the possibly already reset state)
collides with an obstacle, reinitialize the whole level. -/
def collisionPhase (s : LevelState) : LevelState :=
  (List.range s.trackers.length).foldl collideStep s

/-- Phase 4 of Level.update (lines 136-140): kill every coin whose center
is within distance 20 of some tracker's rect center. -/
def coinPhase (s : LevelState) : LevelState :=
  { s with
    coins := s.coins.filter (fun c =>
      decide (∀ a ∈ s.trackers,
        ¬ distance (castPos a.rect_center) (castPos c.pos) < 20)) }

/-- Condition of the goal matching step (levels.py line 146): the tracker
rect center is within distance 10 of the goal, the goal is unmatched, and
the coin group is empty. -/
def goalCond (a : ArcTracker) (g : GoalPoint) (coinsEmpty : Bool) : Prop :=
  distance (castPos a.rect_center) (castPos g.pos) < 10 ∧
  g.arctracker_matched = false ∧ coinsEmpty = true

/-- Effect of a successful goal match on the tracker (lines 147-150):
mark the level complete, reject the path, lock the rect onto the goal. -/
def lockOn (a : ArcTracker) (g : GoalPoint) : ArcTracker :=
  { rejectPath { a with level_complete := true } with rect_center := g.pos }

/-- Inner loop of the goal phase (lines 144-150): fold one tracker over
the goal list in order, matching every unmatched goal the tracker is
locked onto while the coin group is empty. -/
def goalInner (coinsEmpty : Bool) (a : ArcTracker) :
    List GoalPoint → ArcTracker × List GoalPoint
  | [] => (a, [])
  | g :: gs =>
      if goalCond a g coinsEmpty then
        let p := goalInner coinsEmpty (lockOn a g) gs
        (p.1, { g with arctracker_matched := true } :: p.2)
      else
        let p := goalInner coinsEmpty a gs
        (p.1, g :: p.2)

/-- Outer loop of the goal phase (lines 143-150): fold every tracker in
order over the evolving goal list. -/
def goalOuter (coinsEmpty : Bool) :
    List ArcTracker → List GoalPoint → List ArcTracker × List GoalPoint
  | [], gs => ([], gs)
  | a :: as, gs =>
      let p := goalInner coinsEmpty a gs
      let q := goalOuter coinsEmpty as p.2
      (p.1 :: q.1, q.2)

/-- Phase 5 of Level.update (lines 142-150). -/
def goalPhase (s : LevelState) : LevelState :=
  { s with
    trackers := (goalOuter s.coins.isEmpty s.trackers s.goals).1
    goals := (goalOuter s.coins.isEmpty s.trackers s.goals).2 }

/-- Phase 6 of Level.update (lines 152-154): mark the level cleared when
every tracker has completed. -/
def clearedPhase (s : LevelState) : LevelState :=
  if s.trackers.all (fun a => a.level_complete) then { s with cleared := true } else s

/-- Level.update (levels.py lines 107-154): the six phases in source
order. -/
def levelUpdate (s : LevelState) (m : MouseState) (k : KeyState) (dt : ℝ) : LevelState :=
  clearedPhase (goalPhase (coinPhase (collisionPhase (boundsPhase (spritePhase s m k dt)))))

/-- Angular speed of an orbit: the constant linear speed divided by the
orbit radius (sprites_and_functions.py line 192). -/
def angularSpeedOf (v r : ℝ) : ℝ := v / r

/-! ### Geometry helper lemmas -/

theorem distance_nonneg (p q : ℝ × ℝ) : 0 ≤ distance p q := Real.sqrt_nonneg _

theorem sqrt_eval {a b : ℝ} (hb : 0 ≤ b) (h : b ^ 2 = a) : Real.sqrt a = b := by
  rw [← h]; exact Real.sqrt_sq hb

theorem distance_self (p : ℝ × ℝ) : distance p p = 0 := by
  simp [distance]

/-! ### Field-preservation lemmas for the tracker step functions -/

theorem movingStop_angle (m : MouseState) (t : ArcTracker) :
    (movingStop m t).relative_angle = t.relative_angle := by
  unfold movingStop; split <;> rfl

theorem movingStop_x (m : MouseState) (t : ArcTracker) :
    (movingStop m t).x_pos = t.x_pos := by
  unfold movingStop; split <;> rfl

theorem movingStop_y (m : MouseState) (t : ArcTracker) :
    (movingStop m t).y_pos = t.y_pos := by
  unfold movingStop; split <;> rfl

theorem movingRelease_angle (m : MouseState) (t : ArcTracker) :
    (movingRelease m t).relative_angle = t.relative_angle := by
  unfold movingRelease; split <;> rfl

theorem movingRelease_x (m : MouseState) (t : ArcTracker) :
    (movingRelease m t).x_pos = t.x_pos := by
  unfold movingRelease; split <;> rfl

theorem movingRelease_y (m : MouseState) (t : ArcTracker) :
    (movingRelease m t).y_pos = t.y_pos := by
  unfold movingRelease; split <;> rfl

theorem readyGo_omega (m : MouseState) (t : ArcTracker) :
    (readyGo m t).rotation_angular_speed = t.rotation_angular_speed := by
  unfold readyGo; split <;> rfl

theorem readyGo_dir (m : MouseState) (t : ArcTracker) :
    (readyGo m t).direction_factor = t.direction_factor := by
  unfold readyGo; split <;> rfl

theorem readyCancel_omega (m : MouseState) (k : KeyState) (t : ArcTracker) :
    (readyCancel m k t).rotation_angular_speed = t.rotation_angular_speed := by
  unfold readyCancel; split <;> rfl

theorem readyCancel_dir (m : MouseState) (k : KeyState) (t : ArcTracker) :
    (readyCancel m k t).direction_factor = t.direction_factor := by
  unfold readyCancel; split <;> rfl

theorem cloneReadyGo_factor (m : MouseState) (t : ArcTrackerClone) :
    (cloneReadyGo m t).direction_factor = t.direction_factor := by
  unfold cloneReadyGo; split <;> rfl

theorem cloneReadyCancel_factor (m : MouseState) (k : KeyState) (t : ArcTrackerClone) :
    (cloneReadyCancel m k t).direction_factor = t.direction_factor := by
  unfold cloneReadyCancel; split <;> rfl

/-! ### Claim C1 -/

/-- C1: when an axis drag of an idle tracker ends (left button released at
cursor position A), the idle-to-ready transition succeeds exactly when the
distance from the tracker position to A is at least the configured minimum
radius (the boundary case included); when the radius is strictly below the
minimum the tracker stays idle, the preview objects are gone, and the
one-shot raise_popup signal is raised. -/
theorem idle_release_ready_iff_radius_ge_min
    (t : ArcTracker) (m : MouseState) (k : KeyState) (dt : ℝ)
    (hlc : t.level_complete = false) (hst : t.state = ATState.idle)
    (hmp : t.mouse_pressed = true) (hl : m.lclick = false) :
    ((atUpdate t m k dt).state = ATState.ready ↔
      (t.min_path_radius : ℝ) ≤ distance (t.x_pos, t.y_pos) (castPos m.curpos)) ∧
    (distance (t.x_pos, t.y_pos) (castPos m.curpos) < (t.min_path_radius : ℝ) →
      (atUpdate t m k dt).state = ATState.idle ∧
      (atUpdate t m k dt).raise_popup = true ∧
      (atUpdate t m k dt).path = none ∧
      (atUpdate t m k dt).borderline = none ∧
      (atUpdate t m k dt).axis_marker = none) := by
  by_cases hge : (t.min_path_radius : ℝ) ≤ distance (t.x_pos, t.y_pos) (castPos m.curpos)
  · constructor
    · simp [atUpdate, idlePress, idleRelease, idlePost, posToRect, hlc, hst, hmp, hl, hge]
    · intro hlt; exact absurd hge (not_le.mpr hlt)
  · constructor
    · simp [atUpdate, idlePress, idleRelease, idlePost, posToRect, rejectPath,
        hlc, hst, hmp, hl, hge]
    · intro _
      refine ⟨?_, ?_, ?_, ?_, ?_⟩ <;>
        simp [atUpdate, idlePress, idleRelease, idlePost, posToRect, rejectPath,
          hlc, hst, hmp, hl, hge]

/-- Sample idle tracker holding the mouse button, for the C1 witness. -/
def w1T : ArcTracker := { ArcTracker.mk0 (0, 0) 1 150 with mouse_pressed := true }

/-- Sample mouse snapshot with the left button released at (0, 300). -/
def w1M : MouseState := { lclick := false, rclick := false, curpos := (0, 300) }

/-- Sample keyboard snapshot with no key pressed. -/
def wK : KeyState := { escape := false, c := false }

/-- Witness for C1 at a concrete drag-end input. -/
theorem idle_release_ready_iff_radius_ge_min_witness :
    ((atUpdate w1T w1M wK 0).state = ATState.ready ↔
      (w1T.min_path_radius : ℝ) ≤ distance (w1T.x_pos, w1T.y_pos) (castPos w1M.curpos)) ∧
    (distance (w1T.x_pos, w1T.y_pos) (castPos w1M.curpos) < (w1T.min_path_radius : ℝ) →
      (atUpdate w1T w1M wK 0).state = ATState.idle ∧
      (atUpdate w1T w1M wK 0).raise_popup = true ∧
      (atUpdate w1T w1M wK 0).path = none ∧
      (atUpdate w1T w1M wK 0).borderline = none ∧
      (atUpdate w1T w1M wK 0).axis_marker = none) :=
  idle_release_ready_iff_radius_ge_min w1T w1M wK 0 rfl rfl rfl rfl

/-! ### Claim C4 -/

/-- C4: a Ready-state commit sets the tracker's angular speed to the
constant linear speed rotation_speed divided by the orbit radius it just
recomputed from the tracker position and the fixed axis, and that mapping
halves the angular speed whenever the radius doubles. -/
theorem ready_commit_angular_speed
    (t : ArcTracker) (m : MouseState) (k : KeyState) (dt : ℝ)
    (hlc : t.level_complete = false) (hst : t.state = ATState.ready)
    (hmp : t.mouse_pressed = false) (hx : (m.lclick ^^ m.rclick) = true) :
    (atUpdate t m k dt).rotation_angular_speed =
      angularSpeedOf (t.rotation_speed : ℝ)
        (distance (t.x_pos, t.y_pos) (castPos t.rotation_axis)) ∧
    ∀ v r : ℝ, angularSpeedOf v (2 * r) = angularSpeedOf v r / 2 := by
  constructor
  · simp [atUpdate, readyCommit, posToRect, angularSpeedOf, hlc, hst, hmp, hx,
      readyGo_omega, readyCancel_omega]
  · intro v r
    rw [angularSpeedOf, angularSpeedOf, div_div, mul_comm]

/-- Sample ready tracker for the C4 witness. -/
def w4T : ArcTracker :=
  { ArcTracker.mk0 (500, 500) 1 150 with state := ATState.ready, rotation_axis := (500, 300) }

/-- Sample mouse snapshot pressing only the left button. -/
def wML : MouseState := { lclick := true, rclick := false, curpos := (500, 300) }

/-- Witness for C4 at a concrete commit input. -/
theorem ready_commit_angular_speed_witness :
    (atUpdate w4T wML wK 0).rotation_angular_speed =
      angularSpeedOf (w4T.rotation_speed : ℝ)
        (distance (w4T.x_pos, w4T.y_pos) (castPos w4T.rotation_axis)) ∧
    ∀ v r : ℝ, angularSpeedOf v (2 * r) = angularSpeedOf v r / 2 :=
  ready_commit_angular_speed w4T wML wK 0 rfl rfl rfl rfl

/-! ### Claim C5 -/

/-- Distance from a point of the circle of radius R around an axis back to
the axis is exactly R. -/
theorem distance_on_circle (ax ay R θ : ℝ) (hR : 0 ≤ R) :
    distance (ax + R * Real.cos θ, ay + R * Real.sin θ) (ax, ay) = R := by
  have h1 : (ax + R * Real.cos θ - ax) ^ 2 + (ay + R * Real.sin θ - ay) ^ 2
      = R ^ 2 * (Real.cos θ ^ 2 + Real.sin θ ^ 2) := by ring
  rw [distance]
  simp only []
  rw [h1, Real.cos_sq_add_sin_sq, mul_one]
  exact Real.sqrt_sq hR

/-- C5: a frame of a tracker in the Moving state advances the phase by
direction_factor times the angular speed times dt, recomputes the position
as axis + R (cos, sin) of the new phase, and consequently the distance from
the new continuous position to the rotation axis is exactly the fixed
radius R. -/
theorem moving_step_stays_on_circle
    (t : ArcTracker) (m : MouseState) (k : KeyState) (dt : ℝ)
    (hlc : t.level_complete = false) (hst : t.state = ATState.moving)
    (hR : 0 ≤ t.rotation_radius) :
    (atUpdate t m k dt).relative_angle =
      t.relative_angle + (t.direction_factor : ℝ) * t.rotation_angular_speed * dt ∧
    (atUpdate t m k dt).x_pos = (t.rotation_axis.1 : ℝ) +
      t.rotation_radius * Real.cos ((atUpdate t m k dt).relative_angle) ∧
    (atUpdate t m k dt).y_pos = (t.rotation_axis.2 : ℝ) +
      t.rotation_radius * Real.sin ((atUpdate t m k dt).relative_angle) ∧
    distance ((atUpdate t m k dt).x_pos, (atUpdate t m k dt).y_pos)
      (castPos t.rotation_axis) = t.rotation_radius := by
  have ha : (atUpdate t m k dt).relative_angle =
      t.relative_angle + (t.direction_factor : ℝ) * t.rotation_angular_speed * dt := by
    simp [atUpdate, posToRect, movingIntegrate, hlc, hst,
      movingRelease_angle, movingStop_angle]
  have hx : (atUpdate t m k dt).x_pos = (t.rotation_axis.1 : ℝ) +
      t.rotation_radius * Real.cos
        (t.relative_angle + (t.direction_factor : ℝ) * t.rotation_angular_speed * dt) := by
    simp [atUpdate, posToRect, movingIntegrate, hlc, hst,
      movingRelease_x, movingStop_x]
  have hy : (atUpdate t m k dt).y_pos = (t.rotation_axis.2 : ℝ) +
      t.rotation_radius * Real.sin
        (t.relative_angle + (t.direction_factor : ℝ) * t.rotation_angular_speed * dt) := by
    simp [atUpdate, posToRect, movingIntegrate, hlc, hst,
      movingRelease_y, movingStop_y]
  refine ⟨ha, ?_, ?_, ?_⟩
  · rw [hx, ha]
  · rw [hy, ha]
  · rw [hx, hy, castPos]
    exact distance_on_circle _ _ _ _ hR

/-- Sample moving tracker for the C5 witness. -/
def w5T : ArcTracker :=
  { ArcTracker.mk0 (650, 500) 1 150 with
    state := ATState.moving
    rotation_axis := (500, 500)
    rotation_radius := 150
    rotation_angular_speed := 2.4 }

/-- Witness for C5 at a concrete moving-state frame. -/
theorem moving_step_stays_on_circle_witness :
    (atUpdate w5T w1M wK 0.016).relative_angle =
      w5T.relative_angle +
        (w5T.direction_factor : ℝ) * w5T.rotation_angular_speed * 0.016 ∧
    (atUpdate w5T w1M wK 0.016).x_pos = (w5T.rotation_axis.1 : ℝ) +
      w5T.rotation_radius * Real.cos ((atUpdate w5T w1M wK 0.016).relative_angle) ∧
    (atUpdate w5T w1M wK 0.016).y_pos = (w5T.rotation_axis.2 : ℝ) +
      w5T.rotation_radius * Real.sin ((atUpdate w5T w1M wK 0.016).relative_angle) ∧
    distance ((atUpdate w5T w1M wK 0.016).x_pos, (atUpdate w5T w1M wK 0.016).y_pos)
      (castPos w5T.rotation_axis) = w5T.rotation_radius :=
  moving_step_stays_on_circle w5T w1M wK 0.016 rfl rfl
    (by norm_num [w5T, ArcTracker.mk0])

/-! ### Claim C6 -/

/-- Counterexample to C6 as stated: at a concrete Ready-state commit with
the left (primary) button pressed, the code sets direction_factor to -1,
not to +1 as the claim asserts. -/
theorem left_click_direction_factor_cex :
    (atUpdate w4T wML wK 0).direction_factor = -1 ∧ ((-1 : ℤ) ≠ 1) := by
  constructor
  · simp [atUpdate, readyCommit, posToRect, w4T, wML, wK, ArcTracker.mk0,
      readyGo_dir, readyCancel_dir]
  · decide

/-- C6 (amended): a Ready-state commit sets direction_factor to -1 for a
left-click and to +1 for a right-click (with the screen's downward y-axis
these drive counter-clockwise respectively clockwise motion on screen,
matching the class docstring); a clone configured to move opposite its
host commits the negated factor. -/
theorem direction_factor_mapping_amended
    (t : ArcTracker) (c : ArcTrackerClone) (m : MouseState) (k : KeyState) (dt : ℝ)
    (hlc : t.level_complete = false) (hst : t.state = ATState.ready)
    (hmp : t.mouse_pressed = false)
    (hcm : c.mouse_pressed = false) (hco : c.move_opposite_direction = true)
    (hx : (m.lclick ^^ m.rclick) = true) :
    (atUpdate t m k dt).direction_factor = (if m.lclick then -1 else 1) ∧
    (cloneReadyStep m k c).direction_factor = (if m.lclick then 1 else -1) ∧
    (cloneReadyStep m k c).direction_factor = -(atUpdate t m k dt).direction_factor := by
  have h1 : (atUpdate t m k dt).direction_factor = (if m.lclick then -1 else 1) := by
    simp [atUpdate, readyCommit, posToRect, hlc, hst, hmp, hx,
      readyGo_dir, readyCancel_dir]
  have h2 : (cloneReadyStep m k c).direction_factor = (if m.lclick then 1 else -1) := by
    simp [cloneReadyStep, cloneReadyCommit, hcm, hco, hx,
      cloneReadyGo_factor, cloneReadyCancel_factor]
  refine ⟨h1, h2, ?_⟩
  rw [h1, h2]
  cases hml : m.lclick <;> simp

/-- Sample opposite-direction clone for the C6 witness. -/
def w6C : ArcTrackerClone :=
  { state := ATState.ready
    x_pos := 100
    y_pos := 100
    rect_center := (100, 100)
    rotation_axis := (100, 250)
    rotation_radius := 0
    rotation_speed := 360
    rotation_angular_speed := 0
    relative_angle := 0
    direction_factor := 1
    move_opposite_direction := true
    path := none
    mouse_pressed := false
    level_complete := false }

/-- Witness for the amended C6 at a concrete left-click commit. -/
theorem direction_factor_mapping_amended_witness :
    (atUpdate w4T wML wK 0).direction_factor = (if wML.lclick then -1 else 1) ∧
    (cloneReadyStep wML wK w6C).direction_factor = (if wML.lclick then 1 else -1) ∧
    (cloneReadyStep wML wK w6C).direction_factor = -(atUpdate w4T wML wK 0).direction_factor :=
  direction_factor_mapping_amended w4T w6C wML wK 0 rfl rfl rfl rfl rfl rfl

/-! ### Claim C10 -/

/-- C10: an axis drag rejected for a too-small radius leaves the tracker's
continuous position, rect center, initial position and level_complete flag
unchanged; it only drops the preview objects, raises the popup flag,
clears the mouse latch and keeps the state idle. -/
theorem rejected_drag_frame_effect
    (t : ArcTracker) (m : MouseState) (k : KeyState) (dt : ℝ)
    (hlc : t.level_complete = false) (hst : t.state = ATState.idle)
    (hmp : t.mouse_pressed = true) (hl : m.lclick = false)
    (hsync : t.rect_center = (round t.x_pos, round t.y_pos))
    (hrej : distance (t.x_pos, t.y_pos) (castPos m.curpos) < (t.min_path_radius : ℝ)) :
    (atUpdate t m k dt).x_pos = t.x_pos ∧
    (atUpdate t m k dt).y_pos = t.y_pos ∧
    (atUpdate t m k dt).rect_center = t.rect_center ∧
    (atUpdate t m k dt).initial_pos = t.initial_pos ∧
    (atUpdate t m k dt).level_complete = t.level_complete ∧
    (atUpdate t m k dt).state = ATState.idle ∧
    (atUpdate t m k dt).raise_popup = true ∧
    (atUpdate t m k dt).mouse_pressed = false ∧
    (atUpdate t m k dt).path = none ∧
    (atUpdate t m k dt).borderline = none ∧
    (atUpdate t m k dt).axis_marker = none := by
  have hge : ¬ (t.min_path_radius : ℝ) ≤ distance (t.x_pos, t.y_pos) (castPos m.curpos) :=
    not_le.mpr hrej
  refine ⟨?_, ?_, ?_, ?_, ?_, ?_, ?_, ?_, ?_, ?_, ?_⟩ <;>
    (simp [atUpdate, idlePress, idleRelease, idlePost, posToRect, rejectPath,
      hlc, hst, hmp, hl, hge];
     try simp [hsync])

/-- Sample mouse snapshot releasing the drag on the tracker itself (radius
0, rejected). -/
def w10M : MouseState := { lclick := false, rclick := false, curpos := (0, 0) }

/-! ### Helper lemmas for the level protocol -/

theorem atInit_idem (t : ArcTracker) : t.init.init = t.init := rfl

theorem levelInit_idem (s : LevelState) : s.init.init = s.init := by
  simp [LevelState.init, List.map_map, Function.comp_def, atInit_idem]

theorem idlePress_lc (m : MouseState) (t : ArcTracker) :
    (idlePress m t).level_complete = t.level_complete := by
  unfold idlePress; split <;> rfl

theorem idleRelease_lc (m : MouseState) (t : ArcTracker) :
    (idleRelease m t).level_complete = t.level_complete := by
  simp only [idleRelease, rejectPath]; split_ifs <;> rfl

theorem readyCommit_lc (m : MouseState) (t : ArcTracker) :
    (readyCommit m t).level_complete = t.level_complete := by
  unfold readyCommit; split <;> rfl

theorem readyGo_lc (m : MouseState) (t : ArcTracker) :
    (readyGo m t).level_complete = t.level_complete := by
  unfold readyGo; split <;> rfl

theorem readyCancel_lc (m : MouseState) (k : KeyState) (t : ArcTracker) :
    (readyCancel m k t).level_complete = t.level_complete := by
  unfold readyCancel; split <;> rfl

theorem movingStop_lc (m : MouseState) (t : ArcTracker) :
    (movingStop m t).level_complete = t.level_complete := by
  unfold movingStop; split <;> rfl

theorem movingRelease_lc (m : MouseState) (t : ArcTracker) :
    (movingRelease m t).level_complete = t.level_complete := by
  unfold movingRelease; split <;> rfl

/-- ArcTracker.update never changes the level_complete flag; only the goal
phase of Level.update (and a level reset) does. -/
theorem atUpdate_lc (t : ArcTracker) (m : MouseState) (k : KeyState) (dt : ℝ) :
    (atUpdate t m k dt).level_complete = t.level_complete := by
  unfold atUpdate
  split
  · rfl
  · cases ht : t.state <;>
      simp [ht, posToRect, idlePost, idlePress_lc, idleRelease_lc,
        readyCommit_lc, readyGo_lc, readyCancel_lc, movingIntegrate,
        movingStop_lc, movingRelease_lc]

theorem idlePress_ip (m : MouseState) (t : ArcTracker) :
    (idlePress m t).initial_pos = t.initial_pos := by
  unfold idlePress; split <;> rfl

theorem idleRelease_ip (m : MouseState) (t : ArcTracker) :
    (idleRelease m t).initial_pos = t.initial_pos := by
  simp only [idleRelease, rejectPath]; split_ifs <;> rfl

theorem readyCommit_ip (m : MouseState) (t : ArcTracker) :
    (readyCommit m t).initial_pos = t.initial_pos := by
  unfold readyCommit; split <;> rfl

theorem readyGo_ip (m : MouseState) (t : ArcTracker) :
    (readyGo m t).initial_pos = t.initial_pos := by
  unfold readyGo; split <;> rfl

theorem readyCancel_ip (m : MouseState) (k : KeyState) (t : ArcTracker) :
    (readyCancel m k t).initial_pos = t.initial_pos := by
  unfold readyCancel; split <;> rfl

theorem movingStop_ip (m : MouseState) (t : ArcTracker) :
    (movingStop m t).initial_pos = t.initial_pos := by
  unfold movingStop; split <;> rfl

theorem movingRelease_ip (m : MouseState) (t : ArcTracker) :
    (movingRelease m t).initial_pos = t.initial_pos := by
  unfold movingRelease; split <;> rfl

/-- ArcTracker.update never changes the stored starting position. -/
theorem atUpdate_ip (t : ArcTracker) (m : MouseState) (k : KeyState) (dt : ℝ) :
    (atUpdate t m k dt).initial_pos = t.initial_pos := by
  unfold atUpdate
  split
  · rfl
  · cases ht : t.state <;>
      simp [ht, posToRect, idlePost, idlePress_ip, idleRelease_ip,
        readyCommit_ip, readyGo_ip, readyCancel_ip, movingIntegrate,
        movingStop_ip, movingRelease_ip]

theorem spritePhase_goals (s : LevelState) (m : MouseState) (k : KeyState) (dt : ℝ) :
    (spritePhase s m k dt).goals = s.goals := rfl

theorem spritePhase_cleared (s : LevelState) (m : MouseState) (k : KeyState) (dt : ℝ) :
    (spritePhase s m k dt).cleared = s.cleared := rfl

theorem boundsPhase_cases (s : LevelState) :
    boundsPhase s = s ∨ boundsPhase s = LevelState.init s := by
  unfold boundsPhase; split
  · exact Or.inr rfl
  · exact Or.inl rfl

theorem collideStep_cases (cur : LevelState) (i : ℕ) :
    collideStep cur i = cur ∨ collideStep cur i = LevelState.init cur := by
  unfold collideStep; split
  · exact Or.inr rfl
  · exact Or.inl rfl

theorem foldl_collide_init (l : List ℕ) (s : LevelState) :
    l.foldl collideStep (LevelState.init s) = LevelState.init s := by
  induction l with
  | nil => rfl
  | cons j l ih =>
      simp only [List.foldl_cons]
      rcases collideStep_cases (LevelState.init s) j with h | h
      · rw [h]; exact ih
      · rw [h, levelInit_idem]; exact ih

theorem foldl_collide_id (l : List ℕ) (s : LevelState)
    (h : ∀ i ∈ l, ¬ hitsObstacle s i) :
    l.foldl collideStep s = s := by
  induction l with
  | nil => rfl
  | cons j l ih =>
      simp only [List.foldl_cons]
      rw [collideStep, if_neg (h j (by simp))]
      exact ih (fun i hi => h i (by simp [hi]))

theorem foldl_collide_hit (l : List ℕ) (s : LevelState)
    (h : ∃ i ∈ l, hitsObstacle s i) :
    l.foldl collideStep s = LevelState.init s := by
  induction l with
  | nil => simp at h
  | cons j l ih =>
      simp only [List.foldl_cons]
      by_cases hj : hitsObstacle s j
      · rw [collideStep, if_pos hj]; exact foldl_collide_init l s
      · rw [collideStep, if_neg hj]
        rcases h with ⟨i, hi, hhit⟩
        rcases List.mem_cons.mp hi with rfl | hi'
        · exact absurd hhit hj
        · exact ih ⟨i, hi', hhit⟩

theorem collisionPhase_cases (s : LevelState) :
    collisionPhase s = s ∨ collisionPhase s = LevelState.init s := by
  unfold collisionPhase
  by_cases h : ∃ i ∈ List.range s.trackers.length, hitsObstacle s i
  · exact Or.inr (foldl_collide_hit _ _ h)
  · refine Or.inl (foldl_collide_id _ _ ?_)
    push_neg at h; exact h

theorem getD_tracker (l : List ArcTracker) (n : ℕ) (h : n < l.length) :
    l.getD n trackerDefault = l[n] := by
  rw [List.getD_eq_getElem?_getD, List.getElem?_eq_getElem h]; rfl

theorem coinPhase_trackers (s : LevelState) : (coinPhase s).trackers = s.trackers := rfl

theorem coinPhase_goals (s : LevelState) : (coinPhase s).goals = s.goals := rfl

theorem coinPhase_cleared (s : LevelState) : (coinPhase s).cleared = s.cleared := rfl

theorem goalPhase_coins (s : LevelState) : (goalPhase s).coins = s.coins := rfl

theorem goalPhase_cleared (s : LevelState) : (goalPhase s).cleared = s.cleared := rfl

theorem clearedPhase_trackers (s : LevelState) : (clearedPhase s).trackers = s.trackers := by
  unfold clearedPhase; split <;> rfl

theorem clearedPhase_coins (s : LevelState) : (clearedPhase s).coins = s.coins := by
  unfold clearedPhase; split <;> rfl

theorem clearedPhase_goals (s : LevelState) : (clearedPhase s).goals = s.goals := by
  unfold clearedPhase; split <;> rfl

theorem goalInner_id (ce : Bool) (a : ArcTracker) (gs : List GoalPoint)
    (h : ∀ g ∈ gs, ¬ goalCond a g ce) : goalInner ce a gs = (a, gs) := by
  induction gs with
  | nil => rfl
  | cons g gs ih =>
      rw [goalInner, if_neg (h g (by simp))]
      have hih := ih (fun g' hg' => h g' (by simp [hg']))
      simp [hih]

theorem goalInner_ceFalse (a : ArcTracker) (gs : List GoalPoint) :
    goalInner false a gs = (a, gs) :=
  goalInner_id false a gs (fun g _ hc => by simp [goalCond] at hc)

theorem goalOuter_ceFalse (as : List ArcTracker) (gs : List GoalPoint) :
    goalOuter false as gs = (as, gs) := by
  induction as generalizing gs with
  | nil => rfl
  | cons a as ih =>
      rw [goalOuter, goalInner_ceFalse]
      simp [ih]

theorem goalOuter_far (ce : Bool) (as : List ArcTracker) (gs : List GoalPoint)
    (h : ∀ a ∈ as, ∀ g ∈ gs, ¬ goalCond a g ce) :
    goalOuter ce as gs = (as, gs) := by
  induction as generalizing gs with
  | nil => rfl
  | cons a as ih =>
      rw [goalOuter, goalInner_id ce a gs (h a (by simp))]
      have hih := ih gs (fun a' ha' g hg => h a' (by simp [ha']) g hg)
      simp [hih]

/-! ### Claim C9 -/

/-- C9: Level.initialize is idempotent: running it twice in a row with no
intervening update leaves exactly the state obtained by running it once
(all trackers, the coin group, the goal flags and the cleared flag). -/
theorem level_init_idempotent (s : LevelState) :
    (LevelState.init s).init = LevelState.init s :=
  levelInit_idem s

/-! ### Claim C2 -/

/-- C2: within one Level.update frame, a tracker's level_complete flag or
a goal's arctracker_matched flag can switch from false to true only if
the level's coin set is empty when the goal phase runs, hence the coin
set of the resulting state is empty. -/
theorem goal_match_requires_empty_coins
    (s : LevelState) (m : MouseState) (k : KeyState) (dt : ℝ) (i : ℕ)
    (hnew :
      ((s.trackers[i]?).map (fun a => a.level_complete) = some false ∧
        ((levelUpdate s m k dt).trackers[i]?).map (fun a => a.level_complete) = some true) ∨
      ((s.goals[i]?).map (fun g => g.arctracker_matched) = some false ∧
        ((levelUpdate s m k dt).goals[i]?).map (fun g => g.arctracker_matched) = some true)) :
    (levelUpdate s m k dt).coins = [] := by
  set s1 := spritePhase s m k dt with hs1
  set s2 := boundsPhase s1 with hs2
  set s3 := collisionPhase s2 with hs3
  set s4 := coinPhase s3 with hs4
  have hupd : levelUpdate s m k dt = clearedPhase (goalPhase s4) := rfl
  by_cases hce : s4.coins.isEmpty = true
  · rw [hupd, clearedPhase_coins, goalPhase_coins]
    exact List.isEmpty_iff.mp hce
  · exfalso
    have hgoal : goalPhase s4 = s4 := by
      unfold goalPhase
      rw [Bool.not_eq_true] at hce
      rw [hce, goalOuter_ceFalse]
    rw [hupd, hgoal] at hnew
    have htr : ∀ j : ℕ, ((s4.trackers[j]?).map (fun a => a.level_complete)) =
        ((s1.trackers[j]?).map (fun a => a.level_complete)) ∨
        ((s4.trackers[j]?).map (fun a => a.level_complete)) =
        ((s1.trackers[j]?).map (fun _ => false)) := by
      intro j
      rw [hs4, coinPhase_trackers]
      rcases collisionPhase_cases s2 with h3 | h3 <;> rw [hs3, h3] <;>
        rcases boundsPhase_cases s1 with h2 | h2 <;> rw [hs2, h2]
      · exact Or.inl rfl
      · right
        simp [LevelState.init, List.getElem?_map, Option.map_map, Function.comp_def,
          ArcTracker.init]
      · right
        simp [LevelState.init, List.getElem?_map, Option.map_map, Function.comp_def,
          ArcTracker.init]
      · right
        simp [LevelState.init, List.map_map, List.getElem?_map, Option.map_map,
          Function.comp_def, ArcTracker.init]
    have hgl : ∀ j : ℕ, ((s4.goals[j]?).map (fun g => g.arctracker_matched)) =
        ((s.goals[j]?).map (fun g => g.arctracker_matched)) ∨
        ((s4.goals[j]?).map (fun g => g.arctracker_matched)) =
        ((s.goals[j]?).map (fun _ => false)) := by
      intro j
      rw [hs4, coinPhase_goals]
      rcases collisionPhase_cases s2 with h3 | h3 <;> rw [hs3, h3] <;>
        rcases boundsPhase_cases s1 with h2 | h2 <;>
        rw [hs2, h2] <;>
        simp [LevelState.init, hs1, spritePhase, List.getElem?_map, Option.map_map,
          Function.comp_def]
    rcases hnew with ⟨hold, hnow⟩ | ⟨hold, hnow⟩
    · have hbase : ((s1.trackers[i]?).map (fun a => a.level_complete)) =
          ((s.trackers[i]?).map (fun a => a.level_complete)) := by
        rw [hs1]
        simp [spritePhase, List.getElem?_map, Option.map_map, Function.comp_def, atUpdate_lc]
      rw [clearedPhase_trackers] at hnow
      rcases htr i with h | h <;> rw [h] at hnow
      · rw [hbase, hold] at hnow; exact Bool.false_ne_true (Option.some_injective _ hnow)
      · rw [hold] at hbase
        rcases hx : s1.trackers[i]? with _ | a
        · rw [hx] at hnow; simp at hnow
        · rw [hx] at hnow; simp at hnow
    · rw [clearedPhase_goals] at hnow
      rcases hgl i with h | h <;> rw [h] at hnow
      · rw [hold] at hnow; exact Bool.false_ne_true (Option.some_injective _ hnow)
      · rcases hx : s.goals[i]? with _ | g
        · rw [hx] at hnow; simp at hnow
        · rw [hx] at hnow; simp at hnow

/-! ### Claim C8 -/

/-- C8: starting from a not-yet-cleared level state, one Level.update
frame sets the cleared flag exactly when, at the end of the frame, every
tracker of the level has its level_complete flag. -/
theorem cleared_iff_all_level_complete
    (s : LevelState) (m : MouseState) (k : KeyState) (dt : ℝ)
    (h : s.cleared = false) :
    (levelUpdate s m k dt).cleared = true ↔
      ∀ a ∈ (levelUpdate s m k dt).trackers, a.level_complete = true := by
  set s1 := spritePhase s m k dt with hs1
  set s2 := boundsPhase s1 with hs2
  set s3 := collisionPhase s2 with hs3
  set s5 := goalPhase (coinPhase s3) with hs5
  have hupd : levelUpdate s m k dt = clearedPhase s5 := rfl
  have h5 : s5.cleared = false := by
    rw [hs5, goalPhase_cleared, coinPhase_cleared]
    rcases collisionPhase_cases s2 with h3 | h3 <;> rw [hs3, h3] <;>
      rcases boundsPhase_cases s1 with h2 | h2 <;> rw [hs2, h2] <;>
      simp [LevelState.init, hs1, spritePhase, h]
  rw [hupd]
  unfold clearedPhase
  split
  · next hall =>
      constructor
      · intro _
        exact fun a ha => List.all_eq_true.mp hall a ha
      · intro _; rfl
  · next hall =>
      constructor
      · intro hc; rw [h5] at hc; exact absurd hc Bool.false_ne_true
      · intro hforall
        exact absurd (List.all_eq_true.mpr hforall) hall

/-! ### Claim C3 -/

/-- Some tracker of the given state has left the playfield or collides
with an obstacle (the two reset conditions of Level.update). -/
def resetTriggered (s1 : LevelState) : Prop :=
  (∃ a ∈ s1.trackers, outOfBnds a = true) ∨
  (∃ a ∈ s1.trackers, ∃ o ∈ s1.obstacles, o.collided a)

/-- C3 (amended): when a tracker leaves the playfield or collides with an
obstacle during a frame, the whole level is reinitialized before the goal
phase runs; provided no tracker's starting position lies within the goal
lock distance of a goal, no tracker of the frame's final state has
level_complete set, so a tracker cannot both collide and score in the same
tick. -/
theorem reset_precedes_goal_eval_amended
    (s : LevelState) (m : MouseState) (k : KeyState) (dt : ℝ)
    (htrig : resetTriggered (spritePhase s m k dt))
    (hfar : ∀ a ∈ s.trackers, ∀ g ∈ s.goals,
      ¬ distance (castPos a.initial_pos) (castPos g.pos) < 10) :
    collisionPhase (boundsPhase (spritePhase s m k dt)) =
      LevelState.init (spritePhase s m k dt) ∧
    ∀ a ∈ (levelUpdate s m k dt).trackers, a.level_complete = false := by
  set s1 := spritePhase s m k dt with hs1
  have hreset : collisionPhase (boundsPhase s1) = LevelState.init s1 := by
    by_cases hany : s1.trackers.any outOfBnds = true
    · have hb : boundsPhase s1 = LevelState.init s1 := by
        unfold boundsPhase; rw [if_pos hany]
      rw [hb]
      rcases collisionPhase_cases (LevelState.init s1) with hcc | hcc
      · exact hcc
      · rw [hcc, levelInit_idem]
    · have hb : boundsPhase s1 = s1 := by
        unfold boundsPhase; rw [if_neg hany]
      rcases htrig with ⟨a, ha, hoob⟩ | ⟨a, ha, o, ho, hcd⟩
      · exact absurd (List.any_eq_true.mpr ⟨a, ha, hoob⟩) hany
      · rw [hb]
        unfold collisionPhase
        apply foldl_collide_hit
        obtain ⟨n, hlt, hn⟩ := List.mem_iff_getElem.mp ha
        refine ⟨n, List.mem_range.mpr hlt, o, ho, ?_⟩
        rw [getD_tracker _ _ hlt, hn]
        exact hcd
  refine ⟨hreset, ?_⟩
  have hupd : levelUpdate s m k dt =
      clearedPhase (goalPhase (coinPhase (collisionPhase (boundsPhase s1)))) := rfl
  rw [hupd, hreset]
  have hfar2 : ∀ a ∈ (coinPhase (LevelState.init s1)).trackers,
      ∀ g ∈ (coinPhase (LevelState.init s1)).goals,
      ¬ goalCond a g ((coinPhase (LevelState.init s1)).coins.isEmpty) := by
    rw [coinPhase_trackers, coinPhase_goals]
    intro a ha g hg hc
    simp only [LevelState.init, List.mem_map] at ha hg
    obtain ⟨a1, ha1, rfl⟩ := ha
    obtain ⟨g1, hg1, rfl⟩ := hg
    rw [hs1] at ha1 hg1
    simp only [spritePhase, List.mem_map] at ha1
    obtain ⟨a0, ha0, rfl⟩ := ha1
    have hrect : (ArcTracker.init (atUpdate a0 m k dt)).rect_center = a0.initial_pos := by
      simp [ArcTracker.init, atUpdate_ip]
    rcases hc with ⟨hdist, -, -⟩
    rw [hrect] at hdist
    exact hfar a0 ha0 g1 hg1 hdist
  have hgoal : goalPhase (coinPhase (LevelState.init s1)) = coinPhase (LevelState.init s1) := by
    unfold goalPhase
    rw [goalOuter_far _ _ _ hfar2]
  rw [hgoal]
  intro a ha
  rw [clearedPhase_trackers, coinPhase_trackers] at ha
  simp only [LevelState.init, List.mem_map] at ha
  obtain ⟨a1, _, rfl⟩ := ha
  rfl

/-! ### Concrete frame evaluation -/

/-- Evaluation helper: an idle tracker with no held button and no preview
objects is unchanged by ArcTracker.update except for the per-frame angular
speed reset and the rect rounding. -/
theorem atUpdate_calm (t : ArcTracker) (m : MouseState) (k : KeyState) (dt : ℝ)
    (hlc : t.level_complete = false) (hst : t.state = ATState.idle)
    (hmp : t.mouse_pressed = false) (hl : m.lclick = false)
    (hpath : t.path = none) (hmark : t.axis_marker = none) :
    atUpdate t m k dt =
      { t with
        angular_speed_per_frame := 0
        rect_center := (round t.x_pos, round t.y_pos) } := by
  simp [atUpdate, idlePress, idleRelease, idlePost, posToRect, hlc, hst, hmp, hl,
    hpath, hmark]

/-- Evaluation helper: the goal phase fold on one tracker and one goal
whose condition holds locks them together. -/
theorem goalOuter_single_hit (a : ArcTracker) (g : GoalPoint)
    (h : goalCond a g true) :
    goalOuter true [a] [g] =
      ([lockOn a g], [{ g with arctracker_matched := true }]) := by
  simp only [goalOuter, goalInner]
  rw [if_pos h]

/-- Mouse snapshot with no button pressed, away from everything. -/
def c3M : MouseState := { lclick := false, rclick := false, curpos := (900, 900) }

/-- Goal point at the origin, not yet matched. -/
def g0 : GoalPoint := { pos := (0, 0), arctracker_matched := false }

/-- Tracker that starts at the origin but currently sits at (500, 500). -/
def c3T : ArcTracker :=
  { ArcTracker.mk0 (0, 0) 1 150 with
    x_pos := ((500 : ℤ) : ℝ)
    y_pos := ((500 : ℤ) : ℝ)
    rect_center := (500, 500) }

/-- Circular obstacle sitting exactly on the tracker position (500, 500). -/
def c3O : StaticCircularObstacle := { center := (500, 500), radius := 10 }

/-- Degenerate level for C3: the tracker collides at (500, 500) while its
starting position (0, 0) coincides with the goal. -/
def c3L : LevelState :=
  { trackers := [c3T]
    obstacles := [c3O]
    coin_pos_list := []
    coins := []
    goals := [g0]
    cleared := false }

/-- Reinitialized form of the degenerate level. -/
def c3R : LevelState :=
  { trackers := [ArcTracker.mk0 (0, 0) 1 150]
    obstacles := [c3O]
    coin_pos_list := []
    coins := []
    goals := [g0]
    cleared := false }

/-- The sprite phase leaves the degenerate level unchanged. -/
theorem c3L_sprite : spritePhase c3L c3M wK 0 = c3L := by
  have h : atUpdate c3T c3M wK 0 = c3T := by
    rw [atUpdate_calm c3T c3M wK 0 rfl rfl rfl rfl rfl rfl]
    simp [c3T, ArcTracker.mk0]
  simp [spritePhase, h, c3L]

/-- The bounds phase leaves the degenerate level unchanged. -/
theorem c3L_bounds : boundsPhase c3L = c3L := by
  simp [boundsPhase, outOfBnds, c3L, c3T, ArcTracker.mk0, screen_width, screen_height,
    trackerSize]

/-- The collision phase of the degenerate level fires and reinitializes. -/
theorem c3L_collision : collisionPhase c3L = LevelState.init c3L := by
  unfold collisionPhase
  apply foldl_collide_hit
  refine ⟨0, by simp [c3L], c3O, by simp [c3L], ?_⟩
  show distance (castPos c3O.center) (castPos _) < _
  have h0 : (c3L.trackers.getD 0 trackerDefault) = c3T := rfl
  rw [h0]
  have hc : castPos c3O.center = castPos c3T.rect_center := rfl
  rw [hc, distance_self]
  norm_num [c3O, trackerSize]

/-- Reinitializing the degenerate level resets its tracker onto the goal. -/
theorem c3L_init : LevelState.init c3L = c3R := by
  simp [LevelState.init, c3L, c3R]
  exact ⟨rfl, rfl⟩

/-- The tracker of the reset level stands on the goal with no coin left. -/
theorem c3R_cond : goalCond (ArcTracker.mk0 (0, 0) 1 150) g0 true := by
  refine ⟨?_, rfl, rfl⟩
  show distance (castPos _) (castPos g0.pos) < 10
  have h : castPos (ArcTracker.mk0 (0, 0) 1 150).rect_center = castPos g0.pos := rfl
  rw [h, distance_self]
  norm_num

/-- After the full frame, the reset tracker of the degenerate level is
matched with the goal at its starting position. -/
theorem c3L_final :
    ((levelUpdate c3L c3M wK 0).trackers.map fun a => a.level_complete) = [true] := by
  have hupd : levelUpdate c3L c3M wK 0 =
      clearedPhase (goalPhase (coinPhase (collisionPhase (boundsPhase
        (spritePhase c3L c3M wK 0))))) := rfl
  rw [hupd, c3L_sprite, c3L_bounds, c3L_collision, c3L_init]
  have hcp : coinPhase c3R = c3R := rfl
  rw [hcp]
  have hgp : goalPhase c3R =
      { c3R with
        trackers := [lockOn (ArcTracker.mk0 (0, 0) 1 150) g0]
        goals := [{ g0 with arctracker_matched := true }] } := by
    unfold goalPhase
    rw [show c3R.coins.isEmpty = true from rfl,
      show c3R.trackers = [ArcTracker.mk0 (0, 0) 1 150] from rfl,
      show c3R.goals = [g0] from rfl,
      goalOuter_single_hit _ _ c3R_cond]
  rw [hgp, clearedPhase_trackers]
  simp [lockOn, rejectPath]

/-- Counterexample to C3 as stated: in the degenerate level the tracker
collides with an obstacle during the frame, yet it finishes the very same
Level.update with level_complete set, because after the reset its starting
position coincides with the goal. -/
theorem collide_and_score_same_tick_cex :
    (∃ a ∈ (boundsPhase (spritePhase c3L c3M wK 0)).trackers,
      ∃ o ∈ (boundsPhase (spritePhase c3L c3M wK 0)).obstacles, o.collided a) ∧
    ((levelUpdate c3L c3M wK 0).trackers.map fun a => a.level_complete) = [true] := by
  constructor
  · rw [c3L_sprite, c3L_bounds]
    refine ⟨c3T, by simp [c3L], c3O, by simp [c3L], ?_⟩
    show distance (castPos c3O.center) (castPos c3T.rect_center) < _
    have hc : castPos c3O.center = castPos c3T.rect_center := rfl
    rw [hc, distance_self]
    norm_num [c3O, trackerSize]
  · exact c3L_final

/-- Well-behaved level for the C3 witness: same collision, but the goal is
far from every starting position. -/
def w3L : LevelState :=
  { trackers := [c3T]
    obstacles := [c3O]
    coin_pos_list := []
    coins := []
    goals := [{ pos := (1000, 1000), arctracker_matched := false }]
    cleared := false }

/-- The sprite phase leaves the witness level unchanged. -/
theorem w3L_sprite : spritePhase w3L c3M wK 0 = w3L := by
  have h : atUpdate c3T c3M wK 0 = c3T := by
    rw [atUpdate_calm c3T c3M wK 0 rfl rfl rfl rfl rfl rfl]
    simp [c3T, ArcTracker.mk0]
  simp [spritePhase, h, w3L]

/-- Witness for the amended C3 at a concrete colliding frame. -/
theorem reset_precedes_goal_eval_amended_witness :
    collisionPhase (boundsPhase (spritePhase w3L c3M wK 0)) =
      LevelState.init (spritePhase w3L c3M wK 0) ∧
    ∀ a ∈ (levelUpdate w3L c3M wK 0).trackers, a.level_complete = false := by
  apply reset_precedes_goal_eval_amended
  · rw [w3L_sprite]
    refine Or.inr ⟨c3T, by simp [w3L], c3O, by simp [w3L], ?_⟩
    show distance (castPos c3O.center) (castPos c3T.rect_center) < _
    have hc : castPos c3O.center = castPos c3T.rect_center := rfl
    rw [hc, distance_self]
    norm_num [c3O, trackerSize]
  · intro a ha g hg
    simp only [w3L, List.mem_singleton] at ha hg
    subst ha; subst hg
    show ¬ distance (castPos c3T.initial_pos) (castPos (1000, 1000)) < 10
    have h0 : castPos c3T.initial_pos = (((0 : ℤ) : ℝ), ((0 : ℤ) : ℝ)) := rfl
    rw [h0, distance, not_lt]
    simp only [castPos]
    rw [show (((0 : ℤ) : ℝ) - ((1000 : ℤ) : ℝ)) ^ 2 + (((0 : ℤ) : ℝ) - ((1000 : ℤ) : ℝ)) ^ 2
        = 2000000 by norm_num]
    rw [Real.le_sqrt' (by norm_num)]
    norm_num

/-- Tracker standing on the goal of the C2 witness level. -/
def w2T : ArcTracker := ArcTracker.mk0 (0, 0) 1 150

/-- Obstacle-free, coin-free level whose tracker already stands on the
goal: one frame matches them. -/
def w2L : LevelState :=
  { trackers := [w2T]
    obstacles := []
    coin_pos_list := []
    coins := []
    goals := [g0]
    cleared := false }

/-- One frame of the C2 witness level sets the tracker's flag. -/
theorem w2L_final :
    ((levelUpdate w2L c3M wK 0).trackers.map fun a => a.level_complete) = [true] := by
  have hT : atUpdate w2T c3M wK 0 = w2T := by
    rw [atUpdate_calm w2T c3M wK 0 rfl rfl rfl rfl rfl rfl]
    simp [w2T, ArcTracker.mk0]
  have hs : spritePhase w2L c3M wK 0 = w2L := by
    simp [spritePhase, hT, w2L]
  have hb : boundsPhase w2L = w2L := by
    simp [boundsPhase, outOfBnds, w2L, w2T, ArcTracker.mk0, screen_width, screen_height,
      trackerSize]
  have hc : collisionPhase w2L = w2L := by
    unfold collisionPhase
    apply foldl_collide_id
    intro i _ hhit
    rcases hhit with ⟨o, ho, -⟩
    simp [w2L] at ho
  have hcp : coinPhase w2L = w2L := rfl
  have hgp : goalPhase w2L =
      { w2L with
        trackers := [lockOn w2T g0]
        goals := [{ g0 with arctracker_matched := true }] } := by
    unfold goalPhase
    have hcond2 : goalCond w2T g0 true := c3R_cond
    rw [show w2L.coins.isEmpty = true from rfl,
      show w2L.trackers = [w2T] from rfl,
      show w2L.goals = [g0] from rfl,
      goalOuter_single_hit _ _ hcond2]
  have hupd : levelUpdate w2L c3M wK 0 =
      clearedPhase (goalPhase (coinPhase (collisionPhase (boundsPhase
        (spritePhase w2L c3M wK 0))))) := rfl
  rw [hupd, hs, hb, hc, hcp, hgp, clearedPhase_trackers]
  simp [lockOn, rejectPath]

/-- Witness for C2: in the witness level the tracker's flag flips from
false to true within one frame, and the theorem yields the (trivially)
empty final coin set. -/
theorem goal_match_requires_empty_coins_witness :
    (levelUpdate w2L c3M wK 0).coins = [] := by
  apply goal_match_requires_empty_coins w2L c3M wK 0 0
  refine Or.inl ⟨rfl, ?_⟩
  have h := w2L_final
  rcases hx : (levelUpdate w2L c3M wK 0).trackers with _ | ⟨a, l⟩
  · rw [hx] at h; simp at h
  · rw [hx] at h
    simp only [List.map_cons, List.cons.injEq] at h
    simp [hx, h.1]

/-- Witness for C8 at the concrete witness level (not yet cleared). -/
theorem cleared_iff_all_level_complete_witness :
    (levelUpdate w2L c3M wK 0).cleared = true ↔
      ∀ a ∈ (levelUpdate w2L c3M wK 0).trackers, a.level_complete = true :=
  cleared_iff_all_level_complete w2L c3M wK 0 rfl

/-! ### Claim C7 -/

/-- C7: the circle-vs-rectangle test of main.py misclassifies the corner
region.  A tracker of rect width 30 (radius 15) centered at (108, 108)
lies in the corner band of the rectangle with topleft (0, 0) and size
100 x 100; its distance to the corner (100, 100) is sqrt 128, strictly
below the radius, so per the spec it overlaps the corner and must
collide — but collide_with_rect compares the distance to the rectangle
CENTER (50, 50) with the radius and reports no collision. -/
theorem rect_corner_collision_code_bug :
    ¬ collide_with_rect { center := (108, 108), w := 30 }
        [{ x := 0, y := 0, w := 100, h := 100 }] ∧
    distance (castPos (108, 108)) (castPos (100, 100)) < (((30 : ℤ) / 2 : ℤ) : ℝ) := by
  constructor
  · rintro ⟨r, hr, hcol⟩
    simp only [List.mem_singleton] at hr
    subst hr
    simp only [rectCollided, RectObs.centerx, RectObs.centery] at hcol
    rw [if_neg (by decide), if_pos (by decide), if_pos (by decide)] at hcol
    rw [distance] at hcol
    simp only [castPos] at hcol
    norm_num at hcol
    have hlt : (15 : ℝ) < Real.sqrt 6728 := by
      have h1 : Real.sqrt 225 < Real.sqrt 6728 := Real.sqrt_lt_sqrt (by norm_num) (by norm_num)
      rwa [sqrt_eval (by norm_num : (0 : ℝ) ≤ 15) (by norm_num : (15 : ℝ) ^ 2 = 225)] at h1
    exact absurd hcol (not_le.mpr hlt)
  · rw [distance]
    simp only [castPos]
    norm_num
    have h1 : Real.sqrt 128 < Real.sqrt 225 := Real.sqrt_lt_sqrt (by norm_num) (by norm_num)
    rwa [sqrt_eval (by norm_num : (0 : ℝ) ≤ 15) (by norm_num : (15 : ℝ) ^ 2 = 225)] at h1

/-- Witness for C10 at a concrete rejected drag. -/
theorem rejected_drag_frame_effect_witness :
    (atUpdate w1T w10M wK 0).x_pos = w1T.x_pos ∧
    (atUpdate w1T w10M wK 0).y_pos = w1T.y_pos ∧
    (atUpdate w1T w10M wK 0).rect_center = w1T.rect_center ∧
    (atUpdate w1T w10M wK 0).initial_pos = w1T.initial_pos ∧
    (atUpdate w1T w10M wK 0).level_complete = w1T.level_complete ∧
    (atUpdate w1T w10M wK 0).state = ATState.idle ∧
    (atUpdate w1T w10M wK 0).raise_popup = true ∧
    (atUpdate w1T w10M wK 0).mouse_pressed = false ∧
    (atUpdate w1T w10M wK 0).path = none ∧
    (atUpdate w1T w10M wK 0).borderline = none ∧
    (atUpdate w1T w10M wK 0).axis_marker = none :=
  rejected_drag_frame_effect w1T w10M wK 0 rfl rfl rfl rfl
    (by simp [w1T, ArcTracker.mk0])
    (by norm_num [w1T, ArcTracker.mk0, w10M, distance, castPos, Real.sqrt_zero])

end
